import Mathlib

set_option maxRecDepth 4000

/-!
Verification of the repository governance policy engine
(`tools/validation/repo_governance_validator.py`).

The Python module is shallowly embedded below: each `def` mirrors one
Python function, file paths are `String`s, path lists are `List String`,
file contents are `String`s manipulated through their character lists.
Regular expressions from the source are embedded as executable character
matchers over `List Char`; the class `\s` is modelled as the ASCII
whitespace characters.
-/

namespace RepoGovernance

/-- Model of the regex class for whitespace: ASCII whitespace characters. -/
def wsChar (c : Char) : Bool :=
  c == ' ' || c == '\t' || c == '\n' || c == '\r' || c == '\x0b' || c == '\x0c'

/-- `leadsList p l` is true when `p` is an initial segment of `l`
(models Python `str.startswith` on character lists). -/
def leadsList : List Char → List Char → Bool
  | [], _ => true
  | _ :: _, [] => false
  | a :: as, b :: bs => (a == b) && leadsList as bs

/-- `endsList s l` : `l` ends with `s` (models Python `str.endswith`). -/
def endsList (s l : List Char) : Bool :=
  leadsList s.reverse l.reverse

/-- Drop leading whitespace characters. -/
def dropWS (cs : List Char) : List Char :=
  cs.dropWhile wsChar

/-- Drop trailing whitespace characters. -/
def stripTrail (cs : List Char) : List Char :=
  (cs.reverse.dropWhile wsChar).reverse

/-- Python `str.strip()`. -/
def stripChars (cs : List Char) : List Char :=
  stripTrail (dropWS cs)

/-- Split on newline characters keeping empty pieces; the whole input with
no newline yields the single piece. -/
def splitOnNL : List Char → List (List Char)
  | [] => [[]]
  | c :: rest =>
    if c == '\n' then [] :: splitOnNL rest
    else
      match splitOnNL rest with
      | [] => [[c]]
      | l :: ls => (c :: l) :: ls

/-- Split a string on newline characters, Python `str.splitlines` style:
the empty string yields no lines and a trailing newline yields no extra
empty line. -/
def splitLinesChars (cs : List Char) : List (List Char) :=
  let pieces := splitOnNL cs
  if pieces.getLast? = some [] then pieces.dropLast else pieces

/-- Python `content.splitlines()` on strings. -/
def splitLinesStr (s : String) : List String :=
  (splitLinesChars s.data).map String.mk

/-! ### Policy rule tables (module-level constants of the source) -/

def RESTRICTED_PATTERNS : List String :=
  ["archive/", "temp-src/", "simple-test/"]

def RESTRICTED_ALLOWED_FILES : List String :=
  ["archive/README.md", "temp-src/README.md", "simple-test/README.md"]

def DEPRECATED_ROOT_PATTERNS : List String :=
  ["bankwide/", "bank-wide-services/", "loan-service/", "payment-service/"]

def DEPRECATED_ALLOWED_FILES : List String :=
  ["bankwide/README.md", "bank-wide-services/README.md",
   "loan-service/README.md", "payment-service/README.md"]

def SHARED_FOUNDATION_PATTERNS : List String :=
  ["shared-kernel/", "shared-infrastructure/"]

def ADR_PATTERNS : List String :=
  ["docs/architecture/adr/", "docs/architecture/decisions/"]

def REQUIRED_DOCS : List String :=
  ["docs/architecture/REPOSITORY_STRUCTURE_POLICY.md",
   "docs/architecture/MODULE_OWNERSHIP_MAP.md",
   "docs/GENERAL_BACKLOG.md"]

def DEPRECATED_SETTINGS_INCLUDES : List String :=
  ["include \x27bankwide", "include \x27bank-wide-services",
   "include \x27loan-service", "include \x27payment-service"]

def NON_EMPTY_OPENAPI_SPECS : List String :=
  ["api/openapi/customer-context.yaml",
   "api/openapi/loan-context.yaml",
   "api/openapi/payment-context.yaml",
   "api/openapi/risk-context.yaml",
   "api/openapi/compliance-context.yaml"]

/-! ### Change classifier -/

/-- `matches_any_prefix` of the source: the path starts with one of the
patterns. -/
def startsWithAny (path : String) (patterns : List String) : Bool :=
  patterns.any (fun p => leadsList p.data path.data)

/-- Source `is_allowed_or_deleted`. -/
def is_allowed_or_deleted (path : String) (allowed_files deleted_files : List String) : Bool :=
  if allowed_files.contains path then true
  else if deleted_files.contains path then true
  else false

/-- Source `collect_blocked_changes`: the loop appends exactly the changed
files matching a pattern that are neither allowed exceptions nor deleted. -/
def collect_blocked_changes (changed_files patterns allowed_files deleted_files : List String) :
    List String :=
  changed_files.filter
    (fun fp => startsWithAny fp patterns && ! is_allowed_or_deleted fp allowed_files deleted_files)

/-- Source `collect_shared_hits`. -/
def collect_shared_hits (changed_files : List String) : List String :=
  changed_files.filter (fun f => startsWithAny f SHARED_FOUNDATION_PATTERNS)

/-- Source `collect_adr_hits`. -/
def collect_adr_hits (changed_files : List String) : List String :=
  changed_files.filter (fun f => startsWithAny f ADR_PATTERNS)

/-- Source `find_missing_required_docs`. -/
def find_missing_required_docs (existing_paths : List String) : List String :=
  REQUIRED_DOCS.filter (fun doc => ! existing_paths.contains doc)

/-- Source `find_residual_tracked_files`: tracked files under a deprecated
root, not ending in `/README.md`, and not deleted in this change set. -/
def find_residual_tracked_files (tracked_files deleted_files : List String) : List String :=
  tracked_files.filter
    (fun fp => startsWithAny fp DEPRECATED_ROOT_PATTERNS
      && ! endsList "/README.md".data fp.data
      && ! deleted_files.contains fp)

/-- Helper for `collapseWS`: the Boolean records whether the previous
character was whitespace (so the current run is already represented). -/
def collapseWSAux : Bool → List Char → List Char
  | _, [] => []
  | prevWS, c :: rest =>
    if wsChar c then
      if prevWS then collapseWSAux true rest
      else ' ' :: collapseWSAux true rest
    else c :: collapseWSAux false rest

/-- Whitespace-run collapsing, the model of `re.sub(r"\s+", " ", s)`:
every maximal run of whitespace becomes a single space. -/
def collapseWS (cs : List Char) : List Char :=
  collapseWSAux false cs

/-- `hasSub needle hay`: `needle` occurs as a contiguous subsequence of
`hay` (Python `in` on strings). -/
def hasSub (needle : List Char) : List Char → Bool
  | [] => needle.isEmpty
  | c :: rest => leadsList needle (c :: rest) || hasSub needle rest

/-- Source `has_deprecated_includes`: normalize whitespace runs to single
spaces, then look for any deprecated include token. -/
def has_deprecated_includes (settings_content : String) : Bool :=
  DEPRECATED_SETTINGS_INCLUDES.any
    (fun token => hasSub token.data (collapseWS settings_content.data))

/-! ### Validation context and result -/

structure ValidationContext where
  changed_files : List String
  deleted_files : List String
  tracked_files : List String
  settings_content : String
  allow_legacy_path_edits : Bool
  allow_deprecated_root_changes : Bool
  allow_shared_foundation_change : Bool
  strict_deprecated_roots : Bool
  legacy_use_case_hits : List String
  openapi_dpop_issues : List String
  openapi_structure_issues : List String

structure ValidationResult where
  errors : List String
  warnings : List String

/-- Source `ValidationResult.exit_code`: `1 if self.errors else 0`. -/
def ValidationResult.exit_code (r : ValidationResult) : Nat :=
  if r.errors.isEmpty then 0 else 1

/-- The `" - "`-bulleted detail join used by the evaluator. -/
def bulletJoin (hits : List String) : String :=
  String.intercalate "\n" (hits.map (fun h => " - " ++ h))

def restrictedMsg (hits : List String) : String :=
  "ERROR: Changes detected in frozen legacy paths.\n" ++ bulletJoin hits ++
    "\nSet ALLOW_LEGACY_PATH_EDITS=true only for approved migration work."

def deprecatedMsg (hits : List String) : String :=
  "ERROR: Changes detected in deprecated roots.\n" ++ bulletJoin hits ++
    "\nMove changes to canonical modules or set ALLOW_DEPRECATED_ROOT_CHANGES=true for approved migration work."

def settingsMsg : String :=
  "ERROR: Deprecated roots are referenced in settings.gradle includes.\nUse canonical modules under *-context/ and services/ instead."

def residualWarnMsg (residual : List String) : String :=
  "WARN: Residual tracked files exist in deprecated roots:\n" ++
    String.intercalate "\n" residual

def strictResidualMsg : String :=
  "ERROR: STRICT_DEPRECATED_ROOTS=true and residual files were detected."

def sharedFoundationMsg (hits : List String) : String :=
  "ERROR: Shared foundation changed without ADR/decision update.\n" ++ bulletJoin hits ++
    "\nExpected at least one accompanying change in docs/architecture/adr/ or docs/architecture/decisions/.\nSet ALLOW_SHARED_FOUNDATION_CHANGE=true only for pre-approved emergency work."

def legacyNamingMsg (hits : List String) : String :=
  "ERROR: Source files contain legacy use-case numbering (UCxx/ucxx).\n" ++ bulletJoin hits ++
    "\nUse capability-based names in code/config/test identifiers."

def dpopIssuesMsg (hits : List String) : String :=
  "ERROR: OpenAPI protected operations are missing mandatory DPoP header requirements.\n" ++
    bulletJoin hits ++
    "\nEnsure protected operations define security and required DPoP header parity."

def structureIssuesMsg (hits : List String) : String :=
  "ERROR: OpenAPI structure validation failed for required bounded-context specs.\n" ++
    bulletJoin hits ++
    "\nProvide concrete paths and keep required context contracts tracked in repository."

/-- Source `evaluate_context`: sequentially appends each applicable error
and warning message; rendered here as the concatenation of the per-rule
contributions in the source's order. -/
def evaluate_context (ctx : ValidationContext) : ValidationResult :=
  let deleted := ctx.deleted_files
  let restricted_hits :=
    collect_blocked_changes ctx.changed_files RESTRICTED_PATTERNS RESTRICTED_ALLOWED_FILES deleted
  let deprecated_hits :=
    collect_blocked_changes ctx.changed_files DEPRECATED_ROOT_PATTERNS DEPRECATED_ALLOWED_FILES deleted
  let residual := find_residual_tracked_files ctx.tracked_files deleted
  let shared_hits := collect_shared_hits ctx.changed_files
  let adr_hits := collect_adr_hits ctx.changed_files
  { errors :=
      (if !restricted_hits.isEmpty && !ctx.allow_legacy_path_edits then
        [restrictedMsg restricted_hits] else [])
      ++ (if !deprecated_hits.isEmpty && !ctx.allow_deprecated_root_changes then
        [deprecatedMsg deprecated_hits] else [])
      ++ (if has_deprecated_includes ctx.settings_content then [settingsMsg] else [])
      ++ (if !residual.isEmpty && ctx.strict_deprecated_roots then [strictResidualMsg] else [])
      ++ (if !shared_hits.isEmpty && adr_hits.isEmpty && !ctx.allow_shared_foundation_change then
        [sharedFoundationMsg shared_hits] else [])
      ++ (if !ctx.legacy_use_case_hits.isEmpty then
        [legacyNamingMsg ctx.legacy_use_case_hits] else [])
      ++ (if !ctx.openapi_dpop_issues.isEmpty then
        [dpopIssuesMsg ctx.openapi_dpop_issues] else [])
      ++ (if !ctx.openapi_structure_issues.isEmpty then
        [structureIssuesMsg ctx.openapi_structure_issues] else []),
    warnings := if !residual.isEmpty then [residualWarnMsg residual] else [] }

end RepoGovernance

namespace RepoGovernance

/-! ### Claim C1 -/

theorem leadsList_nil (l : List Char) : leadsList [] l = true := by
  cases l <;> rfl

theorem contains_iff_mem (l : List String) (a : String) : l.contains a = true ↔ a ∈ l := by
  simp [List.contains]

theorem is_allowed_or_deleted_eq (path : String) (allowed deleted : List String) :
    is_allowed_or_deleted path allowed deleted =
      (allowed.contains path || deleted.contains path) := by
  by_cases h1 : allowed.contains path <;> by_cases h2 : deleted.contains path <;>
    simp [is_allowed_or_deleted, h1, h2]

theorem mem_collect_blocked (changed patterns allowed deleted : List String) (f : String) :
    f ∈ collect_blocked_changes changed patterns allowed deleted ↔
      (f ∈ changed ∧ startsWithAny f patterns = true ∧ f ∉ allowed ∧ f ∉ deleted) := by
  simp [collect_blocked_changes, List.mem_filter, is_allowed_or_deleted_eq, List.contains,
    and_assoc]

/-- C1: for every list of changed files, every deleted-file set and every
rule set (patterns with allowed exceptions) — in particular the restricted
and deprecated-root rule sets — a file is in the list returned by
`collect_blocked_changes` iff it is a changed file that starts with one of
the rule's prefixes, is not one of the allowed exception paths, and is not
in the deleted set; consequently a path that is both changed and deleted
is never blocked. -/
theorem claim_C1_blocked_characterization
    (changed patterns allowed deleted : List String) (f : String) :
    (f ∈ collect_blocked_changes changed patterns allowed deleted ↔
      (f ∈ changed ∧ startsWithAny f patterns = true ∧ f ∉ allowed ∧ f ∉ deleted)) ∧
    (f ∈ deleted → f ∉ collect_blocked_changes changed patterns allowed deleted) := by
  refine ⟨mem_collect_blocked changed patterns allowed deleted f, fun hdel hmem => ?_⟩
  exact ((mem_collect_blocked changed patterns allowed deleted f).mp hmem).2.2.2 hdel

/-- Witness for C1: `archive/old.txt` changed and deleted is not blocked by
the restricted rule set. -/
theorem claim_C1_witness :
    "archive/old.txt" ∉
      collect_blocked_changes ["archive/old.txt"] RESTRICTED_PATTERNS
        RESTRICTED_ALLOWED_FILES ["archive/old.txt"] :=
  (claim_C1_blocked_characterization ["archive/old.txt"] RESTRICTED_PATTERNS
    RESTRICTED_ALLOWED_FILES ["archive/old.txt"] "archive/old.txt").2 (by decide)

/-! ### Claim C2 -/

theorem ite_bool_prop {α : Type} (b : Bool) (P : Prop) [Decidable P]
    (h : b = true ↔ P) (x y : α) :
    (if b then x else y) = if P then x else y := by
  by_cases hp : P
  · have hb : b = true := h.mpr hp
    simp [hb, hp]
  · have hb : b ≠ true := fun hb => hp (h.mp hb)
    simp [hb, hp]

theorem ite_ne_nil_and_not {α : Type} (l : List String) (flag : Bool) (x : List α) :
    (if !l.isEmpty && !flag then x else []) = (if l ≠ [] ∧ flag = false then x else []) :=
  ite_bool_prop _ _ (by simp [List.isEmpty_iff]) _ _

theorem ite_ne_nil_and_flag {α : Type} (l : List String) (flag : Bool) (x : List α) :
    (if !l.isEmpty && flag then x else []) = (if l ≠ [] ∧ flag = true then x else []) :=
  ite_bool_prop _ _ (by simp [List.isEmpty_iff]) _ _

theorem ite_shared_cond {α : Type} (sh adr : List String) (flag : Bool) (x : List α) :
    (if !sh.isEmpty && adr.isEmpty && !flag then x else []) =
      (if sh ≠ [] ∧ adr = [] ∧ flag = false then x else []) :=
  ite_bool_prop _ _ (by simp [List.isEmpty_iff, and_assoc]) _ _

theorem ite_ne_nil {α : Type} (l : List String) (x : List α) :
    (if !l.isEmpty then x else []) = (if l ≠ [] then x else []) :=
  ite_bool_prop _ _ (by simp [List.isEmpty_iff]) _ _

theorem ite_isEmpty_false {α : Type} (l : List String) (x : List α) :
    (if l.isEmpty = false then x else []) = (if l ≠ [] then x else []) := by
  by_cases h : l = [] <;> simp [h]

/-- C2: `evaluate_context` evaluates all eight rules without short-circuit,
collecting every applicable message in the fixed order (restricted paths,
deprecated roots, settings includes, residual files, shared foundation,
legacy naming, DPoP issues, structural issues); the warning list carries
only the residual warning, and the exit code is 1 iff the error list is
non-empty — warnings alone leave the exit code at 0. -/
theorem claim_C2_evaluate_context_shape (ctx : ValidationContext) :
    ((evaluate_context ctx).errors =
      (if collect_blocked_changes ctx.changed_files RESTRICTED_PATTERNS
            RESTRICTED_ALLOWED_FILES ctx.deleted_files ≠ [] ∧
          ctx.allow_legacy_path_edits = false then
        [restrictedMsg (collect_blocked_changes ctx.changed_files RESTRICTED_PATTERNS
          RESTRICTED_ALLOWED_FILES ctx.deleted_files)] else [])
      ++ (if collect_blocked_changes ctx.changed_files DEPRECATED_ROOT_PATTERNS
            DEPRECATED_ALLOWED_FILES ctx.deleted_files ≠ [] ∧
          ctx.allow_deprecated_root_changes = false then
        [deprecatedMsg (collect_blocked_changes ctx.changed_files DEPRECATED_ROOT_PATTERNS
          DEPRECATED_ALLOWED_FILES ctx.deleted_files)] else [])
      ++ (if has_deprecated_includes ctx.settings_content = true then [settingsMsg] else [])
      ++ (if find_residual_tracked_files ctx.tracked_files ctx.deleted_files ≠ [] ∧
          ctx.strict_deprecated_roots = true then [strictResidualMsg] else [])
      ++ (if collect_shared_hits ctx.changed_files ≠ [] ∧
          collect_adr_hits ctx.changed_files = [] ∧
          ctx.allow_shared_foundation_change = false then
        [sharedFoundationMsg (collect_shared_hits ctx.changed_files)] else [])
      ++ (if ctx.legacy_use_case_hits ≠ [] then
        [legacyNamingMsg ctx.legacy_use_case_hits] else [])
      ++ (if ctx.openapi_dpop_issues ≠ [] then
        [dpopIssuesMsg ctx.openapi_dpop_issues] else [])
      ++ (if ctx.openapi_structure_issues ≠ [] then
        [structureIssuesMsg ctx.openapi_structure_issues] else [])) ∧
    ((evaluate_context ctx).warnings =
      (if find_residual_tracked_files ctx.tracked_files ctx.deleted_files ≠ [] then
        [residualWarnMsg (find_residual_tracked_files ctx.tracked_files ctx.deleted_files)]
      else [])) ∧
    ((evaluate_context ctx).exit_code = 1 ↔ (evaluate_context ctx).errors ≠ []) ∧
    ((evaluate_context ctx).exit_code = 0 ↔ (evaluate_context ctx).errors = []) := by
  refine ⟨?_, ?_, ?_, ?_⟩
  · simp only [evaluate_context, ite_ne_nil_and_not, ite_ne_nil_and_flag, ite_shared_cond,
      ite_ne_nil, Bool.not_eq_true', ite_isEmpty_false]
  · simp only [evaluate_context, ite_ne_nil_and_not, ite_ne_nil_and_flag, ite_shared_cond,
      ite_ne_nil, Bool.not_eq_true', ite_isEmpty_false]
  · by_cases h : (evaluate_context ctx).errors = [] <;>
      simp [ValidationResult.exit_code, h]
  · by_cases h : (evaluate_context ctx).errors = [] <;>
      simp [ValidationResult.exit_code, h]

end RepoGovernance

namespace RepoGovernance

/-! ### Distinctness of the evaluator's messages -/

theorem string_ne_of_get (x y : String) (k : Nat) (h : x.data[k]? ≠ y.data[k]?) : x ≠ y :=
  fun he => h (by rw [he])

theorem concat3_get (p m s : String) (k : Nat) (h : k < p.data.length) :
    (p ++ m ++ s).data[k]? = p.data[k]? := by
  have hd : (p ++ m ++ s).data = p.data ++ (m.data ++ s.data) := by
    rw [String.data_append, String.data_append, List.append_assoc]
  rw [hd, List.getElem?_append_left h]

theorem varMsg_ne_varMsg (p₁ s₁ p₂ s₂ a b : String) (k : Nat)
    (h₁ : k < p₁.data.length) (h₂ : k < p₂.data.length)
    (h : p₁.data[k]? ≠ p₂.data[k]?) :
    p₁ ++ a ++ s₁ ≠ p₂ ++ b ++ s₂ :=
  string_ne_of_get _ _ k (by rw [concat3_get _ _ _ _ h₁, concat3_get _ _ _ _ h₂]; exact h)

theorem varMsg_ne_constMsg (p₁ s₁ a c : String) (k : Nat)
    (h₁ : k < p₁.data.length) (h : p₁.data[k]? ≠ c.data[k]?) :
    p₁ ++ a ++ s₁ ≠ c :=
  string_ne_of_get _ _ k (by rw [concat3_get _ _ _ _ h₁]; exact h)

theorem constMsg_ne_varMsg (c p s a : String) (k : Nat)
    (h₁ : k < p.data.length) (h : c.data[k]? ≠ p.data[k]?) :
    c ≠ p ++ a ++ s :=
  string_ne_of_get _ _ k (by rw [concat3_get _ _ _ _ h₁]; exact h)

theorem sharedMsg_ne_restricted (a b : List String) :
    sharedFoundationMsg a ≠ restrictedMsg b := by
  unfold sharedFoundationMsg restrictedMsg
  exact varMsg_ne_varMsg _ _ _ _ _ _ 7 (by decide) (by decide) (by decide)

theorem sharedMsg_ne_deprecated (a b : List String) :
    sharedFoundationMsg a ≠ deprecatedMsg b := by
  unfold sharedFoundationMsg deprecatedMsg
  exact varMsg_ne_varMsg _ _ _ _ _ _ 7 (by decide) (by decide) (by decide)

theorem sharedMsg_ne_settings (a : List String) :
    sharedFoundationMsg a ≠ settingsMsg := by
  unfold sharedFoundationMsg settingsMsg
  exact varMsg_ne_constMsg _ _ _ _ 7 (by decide) (by decide)

theorem sharedMsg_ne_strict (a : List String) :
    sharedFoundationMsg a ≠ strictResidualMsg := by
  unfold sharedFoundationMsg strictResidualMsg
  exact varMsg_ne_constMsg _ _ _ _ 8 (by decide) (by decide)

theorem sharedMsg_ne_legacy (a b : List String) :
    sharedFoundationMsg a ≠ legacyNamingMsg b := by
  unfold sharedFoundationMsg legacyNamingMsg
  exact varMsg_ne_varMsg _ _ _ _ _ _ 8 (by decide) (by decide) (by decide)

theorem sharedMsg_ne_dpop (a b : List String) :
    sharedFoundationMsg a ≠ dpopIssuesMsg b := by
  unfold sharedFoundationMsg dpopIssuesMsg
  exact varMsg_ne_varMsg _ _ _ _ _ _ 7 (by decide) (by decide) (by decide)

theorem sharedMsg_ne_structure (a b : List String) :
    sharedFoundationMsg a ≠ structureIssuesMsg b := by
  unfold sharedFoundationMsg structureIssuesMsg
  exact varMsg_ne_varMsg _ _ _ _ _ _ 7 (by decide) (by decide) (by decide)

theorem strictMsg_ne_restricted (b : List String) :
    strictResidualMsg ≠ restrictedMsg b := by
  unfold strictResidualMsg restrictedMsg
  exact constMsg_ne_varMsg _ _ _ _ 7 (by decide) (by decide)

theorem strictMsg_ne_deprecated (b : List String) :
    strictResidualMsg ≠ deprecatedMsg b := by
  unfold strictResidualMsg deprecatedMsg
  exact constMsg_ne_varMsg _ _ _ _ 7 (by decide) (by decide)

theorem strictMsg_ne_settings : strictResidualMsg ≠ settingsMsg := by
  decide

theorem strictMsg_ne_shared (b : List String) :
    strictResidualMsg ≠ sharedFoundationMsg b := by
  unfold strictResidualMsg sharedFoundationMsg
  exact constMsg_ne_varMsg _ _ _ _ 8 (by decide) (by decide)

theorem strictMsg_ne_legacy (b : List String) :
    strictResidualMsg ≠ legacyNamingMsg b := by
  unfold strictResidualMsg legacyNamingMsg
  exact constMsg_ne_varMsg _ _ _ _ 8 (by decide) (by decide)

theorem strictMsg_ne_dpop (b : List String) :
    strictResidualMsg ≠ dpopIssuesMsg b := by
  unfold strictResidualMsg dpopIssuesMsg
  exact constMsg_ne_varMsg _ _ _ _ 7 (by decide) (by decide)

theorem strictMsg_ne_structure (b : List String) :
    strictResidualMsg ≠ structureIssuesMsg b := by
  unfold strictResidualMsg structureIssuesMsg
  exact constMsg_ne_varMsg _ _ _ _ 7 (by decide) (by decide)

theorem mem_ite_singleton {α : Type} (P : Prop) [Decidable P] (a m : α) :
    a ∈ (if P then [m] else []) ↔ (P ∧ a = m) := by
  by_cases h : P <;> simp [h]

/-- The shared-foundation error message is in the evaluator's error list
iff the shared-hit list is non-empty, the ADR-hit list is empty, and the
override flag is off. -/
theorem sharedMsg_mem_errors_iff (ctx : ValidationContext) :
    sharedFoundationMsg (collect_shared_hits ctx.changed_files) ∈ (evaluate_context ctx).errors ↔
      (collect_shared_hits ctx.changed_files ≠ [] ∧
        collect_adr_hits ctx.changed_files = [] ∧
        ctx.allow_shared_foundation_change = false) := by
  simp only [evaluate_context, List.mem_append, mem_ite_singleton]
  simp [sharedMsg_ne_restricted, sharedMsg_ne_deprecated, sharedMsg_ne_settings,
    sharedMsg_ne_strict, sharedMsg_ne_legacy, sharedMsg_ne_dpop, sharedMsg_ne_structure,
    List.isEmpty_iff, and_assoc]

/-- The strict-deprecated-roots error message is in the evaluator's error
list iff the residual list is non-empty and the strict flag is on. -/
theorem strictMsg_mem_errors_iff (ctx : ValidationContext) :
    strictResidualMsg ∈ (evaluate_context ctx).errors ↔
      (find_residual_tracked_files ctx.tracked_files ctx.deleted_files ≠ [] ∧
        ctx.strict_deprecated_roots = true) := by
  simp only [evaluate_context, List.mem_append, mem_ite_singleton]
  simp [strictMsg_ne_restricted, strictMsg_ne_deprecated, strictMsg_ne_settings,
    strictMsg_ne_shared, strictMsg_ne_legacy, strictMsg_ne_dpop, strictMsg_ne_structure,
    List.isEmpty_iff, and_assoc]

end RepoGovernance

namespace RepoGovernance

/-! ### Claim C5 -/

/-- Formalization of the claim's own wording for the residual rule: a
README "at that root" is exactly one of the root-level README paths, which
are the entries of `DEPRECATED_ALLOWED_FILES`.
Modelled from the spec: "any tracked path matching a deprecated-root
prefix, not a README at that root, and not deleted in this change set, is
reported". -/
def residual_claimed (tracked_files deleted_files : List String) : List String :=
  tracked_files.filter
    (fun fp => startsWithAny fp DEPRECATED_ROOT_PATTERNS
      && ! DEPRECATED_ALLOWED_FILES.contains fp
      && ! deleted_files.contains fp)

/-- C5 counterexample: `bankwide/legacy/README.md` matches a
deprecated-root prefix, is not a README at that root (the root README is
`bankwide/README.md`), and is not deleted, so by the claim it must be in
the residual list — but the source excludes every path ending in
`/README.md`, at any depth, and returns the empty list. -/
theorem claim_C5_counterexample :
    find_residual_tracked_files ["bankwide/legacy/README.md"] [] = [] ∧
    residual_claimed ["bankwide/legacy/README.md"] [] = ["bankwide/legacy/README.md"] := by
  constructor <;> decide

/-- C5 (amended): the residual list equals exactly the tracked paths that
match a deprecated-root prefix, do not end in `/README.md` (READMEs at any
depth are skipped, not only the root README), and are not deleted in this
change set; whenever this list is non-empty, `evaluate_context` appends
exactly one warning, and additionally one error iff the
`strict_deprecated_roots` flag is set. -/
theorem claim_C5_residual_rule (tracked deleted : List String) (f : String)
    (ctx : ValidationContext) :
    (f ∈ find_residual_tracked_files tracked deleted ↔
      (f ∈ tracked ∧ startsWithAny f DEPRECATED_ROOT_PATTERNS = true ∧
        endsList "/README.md".data f.data = false ∧ f ∉ deleted)) ∧
    ((evaluate_context ctx).warnings.length =
      (if find_residual_tracked_files ctx.tracked_files ctx.deleted_files = [] then 0 else 1)) ∧
    (strictResidualMsg ∈ (evaluate_context ctx).errors ↔
      (find_residual_tracked_files ctx.tracked_files ctx.deleted_files ≠ [] ∧
        ctx.strict_deprecated_roots = true)) := by
  refine ⟨?_, ?_, strictMsg_mem_errors_iff ctx⟩
  · simp [find_residual_tracked_files, List.mem_filter, List.contains, and_assoc]
  · simp only [evaluate_context]
    by_cases h : find_residual_tracked_files ctx.tracked_files ctx.deleted_files = [] <;>
      simp [h, List.isEmpty_iff]

/-! ### Claim C6 -/

theorem filter_ne_nil_iff (l : List String) (p : String → Bool) :
    l.filter p ≠ [] ↔ ∃ f ∈ l, p f = true := by
  rw [Ne, List.filter_eq_nil_iff]
  push_neg
  simp

/-- C6: with the allow-shared-foundation-change flag off, the evaluator
emits the shared-foundation error iff some changed file starts with a
shared-foundation prefix and no changed file starts with an ADR-location
prefix; any changed file under an ADR location clears the error, and
qualification is purely by path prefix match. -/
theorem claim_C6_shared_foundation_rule (ctx : ValidationContext)
    (h : ctx.allow_shared_foundation_change = false) :
    sharedFoundationMsg (collect_shared_hits ctx.changed_files) ∈ (evaluate_context ctx).errors ↔
      ((∃ f ∈ ctx.changed_files, startsWithAny f SHARED_FOUNDATION_PATTERNS = true) ∧
        ¬ ∃ f ∈ ctx.changed_files, startsWithAny f ADR_PATTERNS = true) := by
  rw [sharedMsg_mem_errors_iff]
  rw [show (collect_shared_hits ctx.changed_files ≠ []) =
      (ctx.changed_files.filter (fun f => startsWithAny f SHARED_FOUNDATION_PATTERNS) ≠ []) from rfl]
  rw [filter_ne_nil_iff]
  constructor
  · rintro ⟨hsh, hadr, _⟩
    refine ⟨hsh, fun ⟨f, hf, hp⟩ => ?_⟩
    have : f ∈ collect_adr_hits ctx.changed_files := List.mem_filter.mpr ⟨hf, hp⟩
    rw [hadr] at this
    simp at this
  · rintro ⟨hsh, hadr⟩
    refine ⟨hsh, ?_, h⟩
    rw [show collect_adr_hits ctx.changed_files =
        ctx.changed_files.filter (fun f => startsWithAny f ADR_PATTERNS) from rfl]
    rw [List.filter_eq_nil_iff]
    intro a ha hp
    exact hadr ⟨a, ha, hp⟩

def ctxC6 : ValidationContext :=
  ⟨["shared-kernel/CoreLedger.java"], [], [], "", false, false, false, false, [], [], []⟩

/-- Witness for C6: changing a shared-kernel file with no ADR change and no
override flag puts the shared-foundation error in the error list. -/
theorem claim_C6_witness :
    sharedFoundationMsg (collect_shared_hits ctxC6.changed_files) ∈ (evaluate_context ctxC6).errors :=
  (claim_C6_shared_foundation_rule ctxC6 rfl).mpr (by decide)

/-! ### Claim C10 -/

/-- C10: the shared-foundation and ADR checks ignore deletion status: a
file in both `changed_files` and `deleted_files` still counts as a
shared-foundation hit (so deleting a shared-kernel file with no ADR change
yields the error when the flag is off), and a deleted file under an ADR
location still counts as an accompanying ADR update that clears the
error. -/
theorem claim_C10_deletion_ignored (ctx : ValidationContext) (f g : String)
    (hallow : ctx.allow_shared_foundation_change = false) :
    (f ∈ ctx.changed_files → f ∈ ctx.deleted_files →
      startsWithAny f SHARED_FOUNDATION_PATTERNS = true →
        f ∈ collect_shared_hits ctx.changed_files ∧
        (collect_adr_hits ctx.changed_files = [] →
          sharedFoundationMsg (collect_shared_hits ctx.changed_files) ∈
            (evaluate_context ctx).errors)) ∧
    (g ∈ ctx.changed_files → g ∈ ctx.deleted_files →
      startsWithAny g ADR_PATTERNS = true →
        g ∈ collect_adr_hits ctx.changed_files ∧
        sharedFoundationMsg (collect_shared_hits ctx.changed_files) ∉
          (evaluate_context ctx).errors) := by
  constructor
  · intro hc _ hp
    have hmem : f ∈ collect_shared_hits ctx.changed_files := List.mem_filter.mpr ⟨hc, hp⟩
    refine ⟨hmem, fun hadr => (sharedMsg_mem_errors_iff ctx).mpr ⟨?_, hadr, hallow⟩⟩
    intro hnil
    rw [hnil] at hmem
    simp at hmem
  · intro hc _ hp
    have hmem : g ∈ collect_adr_hits ctx.changed_files := List.mem_filter.mpr ⟨hc, hp⟩
    refine ⟨hmem, fun hin => ?_⟩
    have hadr := ((sharedMsg_mem_errors_iff ctx).mp hin).2.1
    rw [hadr] at hmem
    simp at hmem

def ctxC10 : ValidationContext :=
  ⟨["shared-kernel/Ledger.java"], ["shared-kernel/Ledger.java"], [], "",
    false, false, false, false, [], [], []⟩

def ctxC10b : ValidationContext :=
  ⟨["shared-kernel/Ledger.java", "docs/architecture/adr/ADR-9.md"],
    ["docs/architecture/adr/ADR-9.md"], [], "",
    false, false, false, false, [], [], []⟩

/-- Witness for C10: deleting a shared-kernel file with no ADR change
yields the shared-foundation error, and a deleted ADR file still clears
it. -/
theorem claim_C10_witness :
    sharedFoundationMsg (collect_shared_hits ctxC10.changed_files) ∈
      (evaluate_context ctxC10).errors ∧
    sharedFoundationMsg (collect_shared_hits ctxC10b.changed_files) ∉
      (evaluate_context ctxC10b).errors :=
  ⟨((claim_C10_deletion_ignored ctxC10 "shared-kernel/Ledger.java" "x" rfl).1
      (by decide) (by decide) (by decide)).2 (by decide),
    ((claim_C10_deletion_ignored ctxC10b "x" "docs/architecture/adr/ADR-9.md" rfl).2
      (by decide) (by decide) (by decide)).2⟩

end RepoGovernance

namespace RepoGovernance

/-! ### Claim C9 -/

/-- The `subprocess.CompletedProcess` fields consumed by `command_lines`. -/
structure CompletedProcess where
  returncode : Int
  stdout : String
  stderr : String

/-- Source `command_lines`, as a function of the completed process that
`run_command` hands back (the subprocess call itself is external I/O): a
non-zero exit status yields `[]`, otherwise the stripped non-empty lines
of standard output. -/
def command_lines (completed : CompletedProcess) : List String :=
  if completed.returncode ≠ 0 then []
  else
    (((splitLinesChars completed.stdout.data).map stripChars).filter
      (fun cs => !cs.isEmpty)).map String.mk

/-- C9: any non-zero exit status of the underlying VCS command makes
`command_lines` return the empty list rather than raising, so a failed
git call is observationally identical to a successful call with empty
output (a legitimately empty change set). -/
theorem claim_C9_command_failure_empty (completed : CompletedProcess)
    (h : completed.returncode ≠ 0) :
    command_lines completed = [] ∧
    command_lines completed = command_lines ⟨0, "", ""⟩ := by
  have h1 : command_lines completed = [] := by simp [command_lines, h]
  have h2 : command_lines ⟨0, "", ""⟩ = [] := by decide
  exact ⟨h1, h1.trans h2.symm⟩

/-- Witness for C9: a git call that exits 1 with pending output still
yields no lines, exactly like an empty diff. -/
theorem claim_C9_witness :
    command_lines ⟨1, "fatal: not a git repository", ""⟩ = [] ∧
    command_lines ⟨1, "fatal: not a git repository", ""⟩ = command_lines ⟨0, "", ""⟩ :=
  claim_C9_command_failure_empty ⟨1, "fatal: not a git repository", ""⟩ (by decide)

/-! ### Claim C3 -/

/-- Outcome of one run of the CLI driver `cli`, with the run's I/O
abstracted into the function's inputs: the changed/deleted lists produced
by the diff, the list of required governance documents that exist on disk,
and the precomputed scanner signals. -/
inductive CliOutcome where
  | noChanges : CliOutcome
  | missingDocsFailure (docs : List String) : CliOutcome
  | completed (r : ValidationResult) : CliOutcome

/-- Exit code of a CLI outcome: the early no-changes return exits 0, a
missing-documents failure exits 1, and a completed evaluation returns the
result's exit code. -/
def CliOutcome.exitCode : CliOutcome → Nat
  | CliOutcome.noChanges => 0
  | CliOutcome.missingDocsFailure _ => 1
  | CliOutcome.completed r => r.exit_code

/-- Source `cli`, its control flow over the values the run's I/O produced:
first the empty-diff early return, then the required-documents gate, then
rule evaluation. -/
def cli (changed_files deleted_files existing_docs tracked_deprecated : List String)
    (settings_content : String)
    (allow_legacy allow_deprecated allow_shared strict : Bool)
    (legacy_hits dpop_issues structure_issues : List String) : CliOutcome :=
  if changed_files.isEmpty then CliOutcome.noChanges
  else
    let missing_docs := find_missing_required_docs existing_docs
    if missing_docs.isEmpty then
      CliOutcome.completed (evaluate_context
        ⟨changed_files, deleted_files, tracked_deprecated, settings_content,
          allow_legacy, allow_deprecated, allow_shared, strict,
          legacy_hits, dpop_issues, structure_issues⟩)
    else CliOutcome.missingDocsFailure missing_docs

/-- C3 counterexample: with an empty change set the driver returns before
the required-documents gate, so a run with every governance document
absent still reports nothing and exits 0 — contradicting the claim that
any run with a missing required document exits 1. -/
theorem claim_C3_counterexample :
    find_missing_required_docs [] ≠ [] ∧
    cli [] [] [] [] "" false false false false [] [] [] = CliOutcome.noChanges ∧
    (cli [] [] [] [] "" false false false false [] [] []).exitCode = 0 := by
  refine ⟨by decide, rfl, rfl⟩

/-- C3 (amended): provided at least one changed file was detected, if any
required governance document is absent the run reports each missing
document and exits with code 1, with the check performed before rule
evaluation and short-circuiting the run, independent of whether any policy
rule would otherwise pass; with an empty change set the run exits 0
without reaching the documents check. -/
theorem claim_C3_missing_docs_gate
    (changed_files deleted_files existing_docs tracked_deprecated : List String)
    (settings_content : String)
    (allow_legacy allow_deprecated allow_shared strict : Bool)
    (legacy_hits dpop_issues structure_issues : List String)
    (hch : changed_files ≠ [])
    (hmiss : find_missing_required_docs existing_docs ≠ []) :
    cli changed_files deleted_files existing_docs tracked_deprecated settings_content
        allow_legacy allow_deprecated allow_shared strict
        legacy_hits dpop_issues structure_issues =
      CliOutcome.missingDocsFailure (find_missing_required_docs existing_docs) ∧
    (cli changed_files deleted_files existing_docs tracked_deprecated settings_content
        allow_legacy allow_deprecated allow_shared strict
        legacy_hits dpop_issues structure_issues).exitCode = 1 := by
  have hch' : changed_files.isEmpty = false := by
    cases changed_files with
    | nil => exact absurd rfl hch
    | cons a l => rfl
  have hmiss' : (find_missing_required_docs existing_docs).isEmpty = false := by
    cases hm : find_missing_required_docs existing_docs with
    | nil => exact absurd hm hmiss
    | cons a l => rfl
  constructor
  · simp [cli, hch', hmiss']
  · simp [cli, hch', hmiss', CliOutcome.exitCode]

/-- Witness for C3 (amended): one changed file plus an empty document set
hits the missing-documents failure with exit code 1. -/
theorem claim_C3_witness :
    cli ["src/a.java"] [] [] [] "" false false false false [] [] [] =
      CliOutcome.missingDocsFailure (find_missing_required_docs []) ∧
    (cli ["src/a.java"] [] [] [] "" false false false false [] [] []).exitCode = 1 :=
  claim_C3_missing_docs_gate ["src/a.java"] [] [] [] "" false false false false [] [] []
    (by decide) (by decide)

end RepoGovernance

namespace RepoGovernance

/-! ### Legacy naming scanner -/

def SCANNABLE_SOURCE_SUFFIXES : List String :=
  [".java", ".kt", ".groovy", ".kts", ".yml", ".yaml", ".properties", ".xml",
   ".json", ".md", ".txt", ".adoc", ".sql", ".js", ".ts", ".tsx", ".jsx",
   ".py", ".sh"]

/-- Python `path.replace("\\", "/")`. -/
def replaceBackslash (cs : List Char) : List Char :=
  cs.map (fun c => if c == '\\' then '/' else c)

/-- Source `is_scannable_source_file`. -/
def is_scannable_source_file (path : String) : Bool :=
  let normalized := replaceBackslash path.data
  if ! hasSub "/src/".data ('/' :: normalized) then false
  else if leadsList ".git/".data normalized || leadsList ".gradle/".data normalized then false
  else if hasSub "/build/".data ('/' :: normalized)
      || hasSub "/target/".data ('/' :: normalized)
      || hasSub "/out/".data ('/' :: normalized) then false
  else
    let lowered := normalized.map Char.toLower
    SCANNABLE_SOURCE_SUFFIXES.any (fun suf => endsList suf.data lowered)

def isDigitChar (c : Char) : Bool :=
  48 ≤ c.toNat && c.toNat ≤ 57

/-- One attempt of `LEGACY_USE_CASE_PATTERN = (?:UC|Uc|uc)\d{2,3}` anchored
at the head of the character list: the tag must be literally `UC`, `Uc` or
`uc`, followed greedily by two or three digits. -/
def legacyMatchHere : List Char → Option String
  | c1 :: c2 :: rest =>
    if (c1 == 'U' && (c2 == 'C' || c2 == 'c')) || (c1 == 'u' && c2 == 'c') then
      let ds := (rest.takeWhile isDigitChar).take 3
      if 2 ≤ ds.length then some (String.mk (c1 :: c2 :: ds)) else none
    else none
  | _ => none

/-- `re.search` with `LEGACY_USE_CASE_PATTERN`: the leftmost match. -/
def legacyFirstFrom : List Char → Option String
  | [] => none
  | c :: rest =>
    match legacyMatchHere (c :: rest) with
    | some tok => some tok
    | none => legacyFirstFrom rest

def firstLegacyMatch (line : String) : Option String :=
  legacyFirstFrom line.data

/-- The per-line loop of `scan_source_files_for_legacy_use_case_numbering`:
`enumerate(content.splitlines(), start=i)`, appending one formatted hit per
line whose search succeeds. -/
def scan_file_lines (rel : String) : Nat → List String → List String
  | _, [] => []
  | i, line :: rest =>
    (match firstLegacyMatch line with
     | some tok => [rel ++ ":" ++ toString i ++ ": " ++ tok]
     | none => []) ++ scan_file_lines rel (i + 1) rest

/-- The per-file body of `scan_source_files_for_legacy_use_case_numbering`:
line numbering starts at 1. -/
def scan_file (rel : String) (content : String) : List String :=
  scan_file_lines rel 1 (splitLinesStr content)

/-- Modelled from the spec: the claim's reading of the deprecated
identifier pattern with the tag matched case-insensitively, so that the
mixed capitalization `uC` also matches; this is what the code's
`(?:UC|Uc|uc)` alternation is missing. -/
def ciLegacyMatchHere : List Char → Option String
  | c1 :: c2 :: rest =>
    if (c1 == 'U' || c1 == 'u') && (c2 == 'C' || c2 == 'c') then
      let ds := (rest.takeWhile isDigitChar).take 3
      if 2 ≤ ds.length then some (String.mk (c1 :: c2 :: ds)) else none
    else none
  | _ => none

/-- Modelled from the spec: leftmost case-insensitive match. -/
def ciLegacyFirstFrom : List Char → Option String
  | [] => none
  | c :: rest =>
    match ciLegacyMatchHere (c :: rest) with
    | some tok => some tok
    | none => ciLegacyFirstFrom rest

end RepoGovernance

namespace RepoGovernance

/-! ### Claim C7 -/

/-- C7 counterexample: the line `uC12` contains a case-insensitive match
of the tag-plus-digits pattern (the spec-modelled matcher finds `uC12`),
so by the claim the scanner must report the line — but the source pattern
`(?:UC|Uc|uc)\d{2,3}` does not match `uC` and the scanner reports
nothing. -/
theorem claim_C7_counterexample :
    scan_file "Report.java" "uC12" = [] ∧
    ciLegacyFirstFrom "uC12".data = some "uC12" := by
  constructor <;> decide

theorem scan_file_lines_eq (rel : String) (i : Nat) (lines : List String) :
    scan_file_lines rel i lines =
      (List.enumFrom i lines).filterMap
        (fun p => (firstLegacyMatch p.2).map
          (fun tok => rel ++ ":" ++ toString p.1 ++ ": " ++ tok)) := by
  induction lines generalizing i with
  | nil => rfl
  | cons line rest ih =>
    simp only [scan_file_lines, List.enumFrom, List.filterMap]
    cases h : firstLegacyMatch line with
    | none => simp [h, ih]
    | some tok => simp [h, ih]

theorem legacyFirstFrom_isSome_iff (cs : List Char) :
    (legacyFirstFrom cs).isSome = true ↔
      ∃ i, (legacyMatchHere (cs.drop i)).isSome = true := by
  induction cs with
  | nil =>
    simp only [legacyFirstFrom, List.drop_nil]
    simp [legacyMatchHere]
  | cons c rest ih =>
    cases h : legacyMatchHere (c :: rest) with
    | some tok =>
      simp only [legacyFirstFrom, h]
      exact ⟨fun _ => ⟨0, by simp [h]⟩, fun _ => rfl⟩
    | none =>
      simp only [legacyFirstFrom, h]
      rw [ih]
      constructor
      · rintro ⟨i, hi⟩
        exact ⟨i + 1, by simpa using hi⟩
      · rintro ⟨i, hi⟩
        cases i with
        | zero => simp [h] at hi
        | succ i' => exact ⟨i', by simpa using hi⟩

theorem legacyFirstFrom_leftmost (cs : List Char) (tok : String)
    (h : legacyFirstFrom cs = some tok) :
    ∃ i, legacyMatchHere (cs.drop i) = some tok ∧
      ∀ j, j < i → legacyMatchHere (cs.drop j) = none := by
  induction cs with
  | nil => simp [legacyFirstFrom] at h
  | cons c rest ih =>
    cases hh : legacyMatchHere (c :: rest) with
    | some tok' =>
      rw [legacyFirstFrom, hh] at h
      exact ⟨0, by simpa using hh.trans h, fun j hj => absurd hj (Nat.not_lt_zero j)⟩
    | none =>
      rw [legacyFirstFrom, hh] at h
      obtain ⟨i, hi, hmin⟩ := ih h
      refine ⟨i + 1, by simpa using hi, fun j hj => ?_⟩
      cases j with
      | zero => simpa using hh
      | succ j' => simpa using hmin j' (Nat.lt_of_succ_lt_succ hj)

/-- C7 (amended): the scanner's per-file pass reports exactly one hit per
line whose text contains a match of the source pattern — the tag written
literally `UC`, `Uc` or `uc` (the mixed capitalization `uC` is not
matched) followed by 2–3 digits — formatted as
`path:line_number: matched_token` using the leftmost match of the line;
a line is reported iff some position of it starts a match. -/
theorem claim_C7_legacy_scanner (rel content : String) :
    (scan_file rel content =
      (List.enumFrom 1 (splitLinesStr content)).filterMap
        (fun p => (firstLegacyMatch p.2).map
          (fun tok => rel ++ ":" ++ toString p.1 ++ ": " ++ tok))) ∧
    (∀ line : String, (firstLegacyMatch line).isSome = true ↔
      ∃ i, (legacyMatchHere (line.data.drop i)).isSome = true) ∧
    (∀ cs : List Char, ∀ tok : String, legacyFirstFrom cs = some tok →
      ∃ i, legacyMatchHere (cs.drop i) = some tok ∧
        ∀ j, j < i → legacyMatchHere (cs.drop j) = none) :=
  ⟨scan_file_lines_eq rel 1 (splitLinesStr content),
    fun line => legacyFirstFrom_isSome_iff line.data,
    fun cs tok h => legacyFirstFrom_leftmost cs tok h⟩

/-- Witness for C7 (amended): on `xxUC12yz` the leftmost match is `UC12`
at offset 2 and no earlier offset matches. -/
theorem claim_C7_witness :
    ∃ i, legacyMatchHere ("xxUC12yz".data.drop i) = some "UC12" ∧
      ∀ j, j < i → legacyMatchHere ("xxUC12yz".data.drop j) = none :=
  (claim_C7_legacy_scanner "Report.java" "xxUC12yz").2.2 "xxUC12yz".data "UC12" (by decide)

end RepoGovernance

namespace RepoGovernance

/-! ### OpenAPI micro-parser -/

/-- `stripPre p cs` removes the literal `p` from the head of `cs`, if
present. -/
def stripPre (p cs : List Char) : Option (List Char) :=
  if leadsList p cs then some (cs.drop p.length) else none

/-- `PATH_PATTERN = ^\s{2}(/[^:]+):\s*$` applied with `re.match`: exactly
two leading whitespace characters, a slash, a non-empty colon-free body,
a colon and trailing whitespace; returns the capture group (slash plus
body). -/
def pathMatch (line : String) : Option String :=
  match line.data with
  | c1 :: c2 :: rest =>
    if wsChar c1 && wsChar c2 then
      match rest with
      | '/' :: _ =>
        let stripped := stripTrail rest
        if stripped.getLast? == some ':' then
          let core := stripped.dropLast
          if 2 ≤ core.length && !((core.drop 1).any (fun c => c == ':')) then
            some (String.mk core)
          else none
        else none
      | _ => none
    else none
  | _ => none

def HTTP_METHODS : List String :=
  ["get", "post", "put", "patch", "delete", "head", "options", "trace"]

/-- `HTTP_METHOD_PATTERN = ^\s{4}(get|post|put|patch|delete|head|options|trace):\s*$`
applied with `re.match`; returns the matched verb. -/
def methodMatch (line : String) : Option String :=
  match line.data with
  | c1 :: c2 :: c3 :: c4 :: rest =>
    if wsChar c1 && wsChar c2 && wsChar c3 && wsChar c4 then
      HTTP_METHODS.find? (fun m => stripTrail rest == m.data ++ [':'])
    else none
  | _ => none

/-- Emit the operation block currently being collected, if any (body lines
are accumulated in reverse). -/
def closeBlock (acc : Option (String × String × List String)) :
    List (String × String × List String) :=
  match acc with
  | none => []
  | some (p, m, body) => [(p, m, body.reverse)]

/-- The scanning loop of `extract_operation_blocks`: `cur` is the current
path context, `acc` the operation block being collected. A path marker
updates the context and ends any open block; a method marker ends any open
block and (when a path context exists) opens a new one; every other line
belongs to the open block if there is one. This matches the source's
index-driven loop, whose inner body-collection `while` breaks at the next
path or method marker and resumes the outer loop on that marker. -/
def extractOpsAux : List String → String → Option (String × String × List String) →
    List (String × String × List String)
  | [], _, acc => closeBlock acc
  | line :: rest, cur, acc =>
    match pathMatch line with
    | some p => closeBlock acc ++ extractOpsAux rest p none
    | none =>
      match methodMatch line with
      | some m =>
        if cur == "" then closeBlock acc ++ extractOpsAux rest cur none
        else closeBlock acc ++ extractOpsAux rest cur (some (cur, m, []))
      | none =>
        match acc with
        | some (p, m, body) => extractOpsAux rest cur (some (p, m, line :: body))
        | none => extractOpsAux rest cur none

/-- Source `extract_operation_blocks`. -/
def extract_operation_blocks (lines : List String) : List (String × String × List String) :=
  extractOpsAux lines "" none

/-- Does the line consist of exactly `n` leading whitespace characters,
the literal `key`, optional whitespace, the literal `val`, and trailing
whitespace? Models the anchored patterns `^\s{n}key\s*val\s*$`. -/
def indentKeyValLine (n : Nat) (key val : String) (line : String) : Bool :=
  let pre := line.data.take n
  let rest := line.data.drop n
  pre.length == n && pre.all wsChar &&
    (match stripPre key.data rest with
     | some r => stripTrail (dropWS r) == val.data
     | none => false)

/-- Models `^\s*key\s*val\s*$` with arbitrary leading whitespace. -/
def anyIndentKeyValLine (key val : String) (line : String) : Bool :=
  match stripPre key.data (dropWS line.data) with
  | some r => stripTrail (dropWS r) == val.data
  | none => false

/-- Join body lines with newlines, the `"\n".join(...)` of the source. -/
def joinNL : List String → List Char
  | [] => []
  | [l] => l.data
  | l :: l2 :: rest => l.data ++ '\n' :: joinNL (l2 :: rest)

/-- One attempt of `\$ref:\s*['\"]#\/components\/parameters\/DPoP['\"]`
anchored at the head of the character list. -/
def dpopRefAt (cs : List Char) : Bool :=
  match stripPre "$ref:".data cs with
  | some r =>
    (match dropWS r with
     | q :: r2 =>
       (q == Char.ofNat 39 || q == Char.ofNat 34) &&
         (match stripPre "#/components/parameters/DPoP".data r2 with
          | some (q2 :: _) => q2 == Char.ofNat 39 || q2 == Char.ofNat 34
          | _ => false)
     | [] => false)
  | none => false

/-- `re.search` of the component-reference pattern anywhere in the joined
block. -/
def dpopRefSearch : List Char → Bool
  | [] => false
  | c :: rest => dpopRefAt (c :: rest) || dpopRefSearch rest

/-- Source `operation_requires_dpop` on the block's lines. -/
def operation_requires_dpop (body : List String) : Bool :=
  let has_security := body.any (indentKeyValLine 6 "security:" "")
  if !has_security then false
  else if dpopRefSearch (joinNL body) then true
  else
    hasSub "name: DPoP".data (joinNL body) &&
      hasSub "in: header".data (joinNL body) &&
      body.any (anyIndentKeyValLine "required:" "true")

/-- Character class `[A-Za-z0-9_\-]` of the sibling-key pattern. -/
def identChar (c : Char) : Bool :=
  (65 ≤ c.toNat && c.toNat ≤ 90) || (97 ≤ c.toNat && c.toNat ≤ 122) ||
    isDigitChar c || c == '_' || c == '-'

/-- `^\s{4}[A-Za-z0-9_\-]+:\s*$`: a sibling key at 4-space indentation. -/
def siblingKeyLine (line : String) : Bool :=
  let pre := line.data.take 4
  let rest := line.data.drop 4
  pre.length == 4 && pre.all wsChar &&
    (let stripped := stripTrail rest
     match stripped.getLast? with
     | some ':' =>
       let core := stripped.dropLast
       decide (1 ≤ core.length) && core.all identChar
     | _ => false)

/-- Find the first `^\s{4}DPoP:\s*$` line and collect the lines after it up
to (excluding) the next sibling key line. -/
def findDpopBlockLines : List String → Option (List String)
  | [] => none
  | l :: rest =>
    if indentKeyValLine 4 "DPoP:" "" l then
      some (rest.takeWhile (fun x => !siblingKeyLine x))
    else findDpopBlockLines rest

/-- Source `spec_has_required_dpop_parameter`. -/
def spec_has_required_dpop_parameter (lines : List String) : Bool :=
  match findDpopBlockLines lines with
  | none => false
  | some block =>
    block.any (indentKeyValLine 6 "name:" "DPoP") &&
      block.any (indentKeyValLine 6 "in:" "header") &&
      block.any (indentKeyValLine 6 "required:" "true")

end RepoGovernance

namespace RepoGovernance

/-! ### Per-document DPoP validation (claim C4) -/

/-- Python `method.upper()`. -/
def upperStr (s : String) : String :=
  String.mk (s.data.map Char.toUpper)

/-- The operation-level issue string of `collect_openapi_dpop_issues`. -/
def opIssueMsg (spec p m : String) : String :=
  spec ++ ":" ++ p ++ " " ++ upperStr m ++ " missing required DPoP header parameter"

/-- The document-level issue string of `collect_openapi_dpop_issues`. -/
def docIssueMsg (spec : String) : String :=
  spec ++ ": components.parameters.DPoP missing or not required=true header"

/-- The per-operation loop of `collect_openapi_dpop_issues` for one
document: collects the protected operations and, in the same pass, one
issue per protected operation that does not satisfy the DPoP rule. -/
def dpopOpLoop (spec : String) :
    List (String × String × List String) → List (String × String) × List String
  | [] => ([], [])
  | (p, m, body) :: rest =>
    let r := dpopOpLoop spec rest
    if body.any (indentKeyValLine 6 "security:" "") then
      ((p, m) :: r.1,
        (if ! operation_requires_dpop body then [opIssueMsg spec p m] else []) ++ r.2)
    else r

/-- The per-document body of `collect_openapi_dpop_issues` (the outer
function iterates this over each tracked, readable YAML file under
`api/openapi/`): the operation-level issues in operation order, then the
document-level issue when some operation is protected but the document's
DPoP parameter block is absent or incomplete. -/
def collect_doc_dpop_issues (spec : String) (lines : List String) : List String :=
  let r := dpopOpLoop spec (extract_operation_blocks lines)
  r.2 ++ (if !r.1.isEmpty && !spec_has_required_dpop_parameter lines then
    [docIssueMsg spec] else [])

end RepoGovernance

namespace RepoGovernance

/-! ### Claim C4 -/

theorem dpopOpLoop_eq (spec : String) (ops : List (String × String × List String)) :
    dpopOpLoop spec ops =
      (ops.filterMap (fun t =>
        if t.2.2.any (indentKeyValLine 6 "security:" "") then some (t.1, t.2.1) else none),
       ops.filterMap (fun t =>
        if t.2.2.any (indentKeyValLine 6 "security:" "") && ! operation_requires_dpop t.2.2
        then some (opIssueMsg spec t.1 t.2.1) else none)) := by
  induction ops with
  | nil => rfl
  | cons t rest ih =>
    obtain ⟨p, m, body⟩ := t
    by_cases hs : body.any (indentKeyValLine 6 "security:" "") <;>
      by_cases hr : operation_requires_dpop body <;>
        simp [dpopOpLoop, ih, List.filterMap, hs, hr]

theorem filterMap_ite_isEmpty {α β : Type} (l : List α) (p : α → Bool) (f : α → β) :
    (l.filterMap (fun x => if p x then some (f x) else none)).isEmpty = !l.any p := by
  induction l with
  | nil => rfl
  | cons a t ih =>
    by_cases h : p a <;> simp [List.filterMap, List.any, h, ih]

theorem length_filterMap_ite {α β : Type} (l : List α) (p : α → Bool) (f : α → β) :
    (l.filterMap (fun x => if p x then some (f x) else none)).length = (l.filter p).length := by
  induction l with
  | nil => rfl
  | cons a t ih =>
    by_cases h : p a <;> simp [List.filterMap, List.filter, h, ih]

/-- C4: in one OpenAPI document, a protected operation (extracted body
containing a 6-space-indented `security:` line) satisfies the DPoP rule
iff its body contains the literal component reference to the `DPoP`
parameter, or inlines `name: DPoP` and `in: header` with a
`required: true` line; the document's issue list carries exactly one
operation-level issue per unsatisfied protected operation, plus exactly
one document-level issue iff at least one operation is protected and the
document's 4-space `DPoP:` parameter block does not declare `name: DPoP`,
`in: header` and `required: true` at 6-space indentation — regardless of
how many operations are protected. -/
theorem claim_C4_dpop_rule (spec : String) (lines : List String) :
    (∀ body : List String, body.any (indentKeyValLine 6 "security:" "") = true →
      (operation_requires_dpop body = true ↔
        (dpopRefSearch (joinNL body) = true ∨
          (hasSub "name: DPoP".data (joinNL body) = true ∧
           hasSub "in: header".data (joinNL body) = true ∧
           body.any (anyIndentKeyValLine "required:" "true") = true)))) ∧
    (collect_doc_dpop_issues spec lines =
      (extract_operation_blocks lines).filterMap
        (fun t => if t.2.2.any (indentKeyValLine 6 "security:" "") &&
            ! operation_requires_dpop t.2.2 then some (opIssueMsg spec t.1 t.2.1) else none)
      ++ (if (extract_operation_blocks lines).any
              (fun t => t.2.2.any (indentKeyValLine 6 "security:" "")) = true ∧
            spec_has_required_dpop_parameter lines = false
          then [docIssueMsg spec] else [])) ∧
    ((collect_doc_dpop_issues spec lines).length =
      ((extract_operation_blocks lines).filter
        (fun t => t.2.2.any (indentKeyValLine 6 "security:" "") &&
          ! operation_requires_dpop t.2.2)).length
      + (if (extract_operation_blocks lines).any
              (fun t => t.2.2.any (indentKeyValLine 6 "security:" "")) = true ∧
            spec_has_required_dpop_parameter lines = false
          then 1 else 0)) := by
  have hmain : collect_doc_dpop_issues spec lines =
      (extract_operation_blocks lines).filterMap
        (fun t => if t.2.2.any (indentKeyValLine 6 "security:" "") &&
            ! operation_requires_dpop t.2.2 then some (opIssueMsg spec t.1 t.2.1) else none)
      ++ (if (extract_operation_blocks lines).any
              (fun t => t.2.2.any (indentKeyValLine 6 "security:" "")) = true ∧
            spec_has_required_dpop_parameter lines = false
          then [docIssueMsg spec] else []) := by
    rw [collect_doc_dpop_issues, dpopOpLoop_eq]
    simp only [filterMap_ite_isEmpty, Bool.not_not]
    congr 1
    exact ite_bool_prop _ _ (by simp) _ _
  refine ⟨?_, hmain, ?_⟩
  · intro body hs
    by_cases hr : dpopRefSearch (joinNL body) <;>
      simp [operation_requires_dpop, hs, hr, and_assoc]
  · rw [hmain, List.length_append, length_filterMap_ite]
    congr 1
    rw [apply_ite List.length]
    simp

/-- Witness for C4: a protected operation whose body only declares
`security:` does not satisfy the DPoP rule, via the characterization. -/
theorem claim_C4_witness :
    operation_requires_dpop ["      security:"] = true ↔
      (dpopRefSearch (joinNL ["      security:"]) = true ∨
        (hasSub "name: DPoP".data (joinNL ["      security:"]) = true ∧
         hasSub "in: header".data (joinNL ["      security:"]) = true ∧
         ["      security:"].any (anyIndentKeyValLine "required:" "true") = true)) :=
  (claim_C4_dpop_rule "api/openapi/loan-context.yaml" []).1 ["      security:"] (by decide)

end RepoGovernance

namespace RepoGovernance

/-! ### OpenAPI structural validator (claim C8) -/

/-- State of one required spec file on disk: `absent` models a failing
`exists()`/`is_file()` check, `unreadable` an `OSError` during
`read_text`, and `readable` a successful read. -/
inductive FileState where
  | absent : FileState
  | unreadable : FileState
  | readable (content : String) : FileState

/-- One line of `^paths:\s*\{\}\s*$`: no indentation, the literal
`paths:`, optional whitespace, the literal empty-braces marker, trailing
whitespace. -/
def emptyPathsLine (line : String) : Bool :=
  match stripPre "paths:".data line.data with
  | some r =>
    (match stripPre "\x7b\x7d".data (dropWS r) with
     | some r2 => r2.all wsChar
     | none => false)
  | none => false

/-- `re.search(r"(?m)^paths:\s*\{\}\s*$", content)`. -/
def hasEmptyPathsMarker (content : String) : Bool :=
  (splitLinesStr content).any emptyPathsLine

/-- The per-spec body of `collect_openapi_structure_issues`: the first
failing check in the fixed order — untracked, missing on disk, unreadable,
literal empty-paths marker, no concrete path marker — determines the
single issue; a spec passing all checks yields none. -/
def structure_issue_for (tracked : List String) (st : FileState) (spec : String) :
    Option String :=
  if ! tracked.contains spec then some (spec ++ ": required OpenAPI spec is not tracked")
  else
    match st with
    | FileState.absent => some (spec ++ ": required OpenAPI spec file is missing")
    | FileState.unreadable => some (spec ++ ": unable to read OpenAPI spec")
    | FileState.readable content =>
      if hasEmptyPathsMarker content then
        some (spec ++ ": paths are empty (paths: \x7b\x7d)")
      else if ! (splitLinesStr content).any (fun l => (pathMatch l).isSome) then
        some (spec ++ ": no concrete API paths found under paths")
      else none

/-- Source `collect_openapi_structure_issues` over the abstracted file
system: one pass over the fixed required-spec list. -/
def collect_openapi_structure_issues (tracked : List String) (fs : String → FileState) :
    List String :=
  NON_EMPTY_OPENAPI_SPECS.filterMap (fun spec => structure_issue_for tracked (fs spec) spec)

end RepoGovernance

namespace RepoGovernance

/-! ### Claim C8 -/

/-- C8: for each required OpenAPI spec the structural validator reports at
most one issue, determined by the first failing check in the order
untracked → missing → unreadable → literal `paths: \x7b\x7d` marker → no
2-space path-marker line; in particular a document containing the
empty-paths marker is reported only as paths-empty, and a spec passing
all checks produces no issue. -/
theorem claim_C8_structure_checks (tracked : List String) (st : FileState)
    (spec content : String) :
    (tracked.contains spec = false →
      structure_issue_for tracked st spec =
        some (spec ++ ": required OpenAPI spec is not tracked")) ∧
    (tracked.contains spec = true →
      structure_issue_for tracked FileState.absent spec =
        some (spec ++ ": required OpenAPI spec file is missing")) ∧
    (tracked.contains spec = true →
      structure_issue_for tracked FileState.unreadable spec =
        some (spec ++ ": unable to read OpenAPI spec")) ∧
    (tracked.contains spec = true → hasEmptyPathsMarker content = true →
      structure_issue_for tracked (FileState.readable content) spec =
        some (spec ++ ": paths are empty (paths: \x7b\x7d)")) ∧
    (tracked.contains spec = true → hasEmptyPathsMarker content = false →
      (splitLinesStr content).any (fun l => (pathMatch l).isSome) = false →
      structure_issue_for tracked (FileState.readable content) spec =
        some (spec ++ ": no concrete API paths found under paths")) ∧
    (tracked.contains spec = true → hasEmptyPathsMarker content = false →
      (splitLinesStr content).any (fun l => (pathMatch l).isSome) = true →
      structure_issue_for tracked (FileState.readable content) spec = none) ∧
    (∀ s : FileState, (structure_issue_for tracked s spec).toList.length ≤ 1) ∧
    (∀ fs : String → FileState,
      collect_openapi_structure_issues tracked fs =
        NON_EMPTY_OPENAPI_SPECS.filterMap (fun s => structure_issue_for tracked (fs s) s)) := by
  refine ⟨fun h => ?_, fun h => ?_, fun h => ?_, fun h h2 => ?_, fun h h2 h3 => ?_,
    fun h h2 h3 => ?_, fun s => ?_, fun fs => rfl⟩
  · have h' : spec ∉ tracked := by simpa using h
    simp [structure_issue_for, h']
  · have h' : spec ∈ tracked := by simpa using h
    simp [structure_issue_for, h']
  · have h' : spec ∈ tracked := by simpa using h
    simp [structure_issue_for, h']
  · have h' : spec ∈ tracked := by simpa using h
    simp [structure_issue_for, h', h2]
  · have h' : spec ∈ tracked := by simpa using h
    simp [structure_issue_for, h', h2, h3]
  · have h' : spec ∈ tracked := by simpa using h
    simp [structure_issue_for, h', h2, h3]
  · cases hi : structure_issue_for tracked s spec <;> simp [hi]

/-- Witness for C8: a tracked spec whose document is the literal
empty-paths marker is reported exactly as paths-empty. -/
theorem claim_C8_witness :
    structure_issue_for NON_EMPTY_OPENAPI_SPECS
        (FileState.readable "openapi: 3.0.0\npaths: \x7b\x7d\n")
        "api/openapi/loan-context.yaml" =
      some ("api/openapi/loan-context.yaml" ++ ": paths are empty (paths: \x7b\x7d)") :=
  (claim_C8_structure_checks NON_EMPTY_OPENAPI_SPECS FileState.absent
    "api/openapi/loan-context.yaml" "openapi: 3.0.0\npaths: \x7b\x7d\n").2.2.2.1
    (by decide) (by decide)

end RepoGovernance
